import Mathlib

/-!
# Shallow embedding of the portFwd connection manager

This file embeds, in Lean 4, the state and registry operations of the
`internal/portforward` manager, the daemon's restore/save logic and the
service endpoint resolution of `runPortForward`, and proves properties of
the embedded definitions.

Conventions of the embedding:
* the Go `map[string]*Connection` registry is an association list
  `List (String × Connection)`; Go map semantics (at most one entry per
  key) appear as `Nodup` hypotheses on the key list where a proof needs
  them;
* wall-clock times (`time.Now()`) are explicit `Nat` parameters;
* channels and `context.CancelFunc` are represented by the observable
  flags they leave on a record: `stopChanClosed` (the stop channel has
  been closed, i.e. `stopOnce` has fired), `hasCancelFunc`
  (a cancellable context is attached) and `cancelled` (the cancel
  function has been invoked);
* the per-record diagnostic log ring buffer (`Connection.Logs`,
  `AddLog`) carries no control meaning and is not modelled;
* fallible operations return their updated manager together with an
  `Except`, mirroring that the Go methods return early, before any
  mutation, on their error paths.
-/

set_option linter.unnecessarySimpa false

namespace PortFwd

/-- Lifecycle `Status` of a port-forward connection (manager.go 30-39). -/
inductive Status where
  | active
  | stopped
  | error
  | starting
  | reconnecting
deriving DecidableEq, Repr

/-- Target `ResourceType` of the port-forward (manager.go 41-47). -/
inductive ResourceType where
  | pod
  | service
deriving DecidableEq, Repr

/-- The id prefix chosen in `startPortForward` / `AddStoppedConnection`:
`"pod"` for a pod target, `"svc"` for a service target. -/
def ResourceType.idPre : ResourceType → String
  | .pod => "pod"
  | .service => "svc"

/-- Rendering `string(conn.ResourceType)` as used by `GetAllConnectionsForSave`. -/
def ResourceType.str : ResourceType → String
  | .pod => "pod"
  | .service => "service"

/-- One port-forward connection record (manager.go 49-71).  The channel
and context fields are replaced by the observable flags described in the
header comment; the log buffer is not modelled. -/
structure Connection where
  id : String
  ns : String
  resourceType : ResourceType
  resourceName : String
  localPort : Nat
  remotePort : Nat
  status : Status
  errMsg : String
  startedAt : Nat
  stoppedAt : Nat
  reconnectCount : Nat
  autoReconnect : Bool
  stopChanClosed : Bool
  hasCancelFunc : Bool
  cancelled : Bool
deriving DecidableEq, Repr

/-- The manager's registry: the `connections map[string]*Connection`
field of `Manager` (manager.go 73-80), as an association list. -/
structure Manager where
  connections : List (String × Connection)
deriving DecidableEq, Repr

/-- The canonical identity string built in `startPortForward`
(manager.go 138): `{ns}/{pod|svc}/{name}:{local}->{remote}`. -/
def makeID (ns : String) (rt : ResourceType) (name : String)
    (lp rp : Nat) : String :=
  ns ++ "/" ++ rt.idPre ++ "/" ++ name ++ ":" ++ toString lp ++ "->" ++ toString rp

/-- Registry lookup, `m.connections[id]`. -/
def Manager.find (m : Manager) (id : String) : Option Connection :=
  m.connections.lookup id

/-- Map deletion `delete(m.connections, id)`. -/
def eraseConn (id : String) (l : List (String × Connection)) :
    List (String × Connection) :=
  l.filter (fun p => !(p.1 == id))

/-- In-place mutation of the record stored under `id` (the Go code
mutates `*Connection` through the map's pointer). -/
def setConn (m : Manager) (id : String) (f : Connection → Connection) : Manager :=
  { connections := m.connections.map (fun p => bif p.1 == id then (p.1, f p.2) else p) }

/-- Number of registry entries stored under `id`. -/
def Manager.countId (m : Manager) (id : String) : Nat :=
  (m.connections.filter (fun p => p.1 == id)).length

/-- Returns `true` when the registry holds an entry for `id`. -/
def Manager.containsId (m : Manager) (id : String) : Bool :=
  (m.find id).isSome

/-- The fresh record built in `startPortForward` (manager.go 165-180):
status `Starting`, a cancellable context attached, stop channel open. -/
def newStartingConnection (ns : String) (rt : ResourceType) (name : String)
    (lp rp now : Nat) : Connection :=
  { id := makeID ns rt name lp rp
    ns := ns
    resourceType := rt
    resourceName := name
    localPort := lp
    remotePort := rp
    status := .starting
    errMsg := ""
    startedAt := now
    stoppedAt := 0
    reconnectCount := 0
    autoReconnect := true
    stopChanClosed := false
    hasCancelFunc := true
    cancelled := false }

/-- Errors returned by the registry-lock section of `startPortForward`. -/
inductive StartErr where
  | alreadyActive (id : String)
deriving DecidableEq, Repr

/-- The registry-lock section of `startPortForward` (manager.go
144-188): under the registry mutex, look up the identity; reject with
`AlreadyActive` if the existing record is `Active`/`Starting`; otherwise
cancel and evict the existing record, then insert a fresh `Starting`
record.  The second component of a successful result is the evicted old
record, with its cancellation triggered when it had a cancel function. -/
def startPortForwardLock (m : Manager) (ns : String) (rt : ResourceType)
    (name : String) (lp rp now : Nat) :
    Manager × Except StartErr (Option Connection) :=
  let id := makeID ns rt name lp rp
  match m.find id with
  | some existing =>
    if existing.status = .active ∨ existing.status = .starting then
      (m, .error (.alreadyActive id))
    else
      let evicted := { existing with
        cancelled := existing.cancelled || existing.hasCancelFunc }
      (⟨(id, newStartingConnection ns rt name lp rp now) :: eraseConn id m.connections⟩,
        .ok (some evicted))
  | none =>
      (⟨(id, newStartingConnection ns rt name lp rp now) :: m.connections⟩,
        .ok none)

/-- Errors returned by `StopPortForward`, `RemoveConnection` and
`DeleteConnection`. -/
inductive RegistryErr where
  | notFound (id : String)
  | cannotRemoveActive
deriving DecidableEq, Repr

/-- The record mutation performed by `StopPortForward` once the record
is found (manager.go 556-576): an already-`Stopped` record is returned
unchanged (the method returns `nil` early, before touching the cancel
function or the stop channel); otherwise the status becomes `Stopped`,
the stop time is stamped, the context is cancelled when present, and the
stop channel is closed exactly once through `stopOnce`. -/
def stopConnUpdate (now : Nat) (c : Connection) : Connection :=
  if c.status = .stopped then c
  else
    { c with
      status := .stopped
      stoppedAt := now
      cancelled := c.cancelled || c.hasCancelFunc
      stopChanClosed := true }

/-- Method `StopPortForward` (manager.go 545-581). -/
def stopPortForward (m : Manager) (id : String) (now : Nat) :
    Manager × Except RegistryErr Unit :=
  match m.find id with
  | none => (m, .error (.notFound id))
  | some _ => (setConn m id (stopConnUpdate now), .ok ())

/-- Method `RemoveConnection` (manager.go 693-713): fails with `not found` for
an unknown id and with `cannot remove active connection` when the record
is `Active`/`Starting`; otherwise deletes the entry from the map. -/
def removeConnection (m : Manager) (id : String) :
    Manager × Except RegistryErr Unit :=
  match m.find id with
  | none => (m, .error (.notFound id))
  | some c =>
    if c.status = .active ∨ c.status = .starting then
      (m, .error .cannotRemoveActive)
    else
      (⟨eraseConn id m.connections⟩, .ok ())

/-- Method `DeleteConnection` (manager.go 822-849): fails only for an unknown
id.  An `Active`/`Starting` record is first stopped (status `Stopped`,
stop time stamped), its context is cancelled and its stop channel closed,
and then — whatever the status was — the entry is deleted from the map.
The evicted record is returned for observability of those mutations. -/
def deleteConnection (m : Manager) (id : String) (now : Nat) :
    Manager × Except RegistryErr Unit × Option Connection :=
  match m.find id with
  | none => (m, .error (.notFound id), none)
  | some c =>
    let c := if c.status = .active ∨ c.status = .starting then
        { c with status := .stopped, stoppedAt := now }
      else c
    let c := { c with
      cancelled := c.cancelled || c.hasCancelFunc
      stopChanClosed := true }
    (⟨eraseConn id m.connections⟩, .ok (), some c)

/-- The daemon's `handleRemove` (daemon.go 160-174): the IPC `remove`
command is dispatched to `Manager.DeleteConnection`; the response is
success exactly when `DeleteConnection` returned no error. -/
def handleRemove (m : Manager) (id : String) (now : Nat) : Manager × Bool :=
  match deleteConnection m id now with
  | (m', .ok _, _) => (m', true)
  | (m', .error _, _) => (m', false)

/-- The placeholder record built by `AddStoppedConnection`
(manager.go 800-815): status `Stopped`, both timestamps stamped `now`,
no cancellable context attached. -/
def stoppedPlaceholder (ns : String) (rt : ResourceType) (name : String)
    (lp rp now : Nat) : Connection :=
  { id := makeID ns rt name lp rp
    ns := ns
    resourceType := rt
    resourceName := name
    localPort := lp
    remotePort := rp
    status := .stopped
    errMsg := ""
    startedAt := now
    stoppedAt := now
    reconnectCount := 0
    autoReconnect := true
    stopChanClosed := false
    hasCancelFunc := false
    cancelled := false }

/-- Method `AddStoppedConnection` (manager.go 785-819): inserts a `Stopped`
placeholder, unless the identity already exists, in which case nothing
happens. -/
def addStoppedConnection (m : Manager) (ns : String) (rt : ResourceType)
    (name : String) (lp rp now : Nat) : Manager :=
  let id := makeID ns rt name lp rp
  match m.find id with
  | some _ => m
  | none => ⟨(id, stoppedPlaceholder ns rt name lp rp now) :: m.connections⟩

/-- The outcome of the ready/error/timeout/cancel race that
`startPortForward` (manager.go 196-215) runs against its worker
goroutine `runPortForward`.  The worker's interaction with the cluster
and the tunnel primitive is external input, so the outcome is a
parameter of the embedding:
* `ready`: the ready channel fired; `runPortForward` has marked the
  record `Active` (manager.go 448-455);
* `failStart msg`: `runPortForward` failed before readiness (pod/service
  lookup, resolution, transport or tunnel error) after marking the
  record `Error` with message `msg`, and the error reached `errChan`;
* `timeout`: the 30-second guard fired; `startPortForward` calls
  `StopPortForward` and returns a timeout error;
* `ctxDone`: the caller's context was cancelled; `startPortForward`
  calls `StopPortForward` and returns the context error. -/
inductive WorkerOutcome where
  | ready
  | failStart (msg : String)
  | timeout
  | ctxDone
deriving DecidableEq, Repr

/-- Composition of `startPortForward` with the registry effect of its worker,
summarised by the worker outcome (manager.go 133-216 and the status
writes of `runPortForward`).  Returns the updated manager and `some
errMsg` exactly when the Go method returns a non-nil error. -/
def startPortForwardFull (m : Manager) (ns : String) (rt : ResourceType)
    (name : String) (lp rp now : Nat) (outcome : WorkerOutcome) :
    Manager × Option String :=
  let id := makeID ns rt name lp rp
  match startPortForwardLock m ns rt name lp rp now with
  | (m', .error (.alreadyActive _)) =>
      (m', some ("port-forward already active for " ++ id))
  | (m', .ok _) =>
    match outcome with
    | .ready =>
        (setConn m' id (fun c => { c with status := .active }), none)
    | .failStart msg =>
        (setConn m' id (fun c => { c with status := .error, errMsg := msg }), some msg)
    | .timeout =>
        ((stopPortForward m' id now).1, some "timeout waiting for port-forward")
    | .ctxDone =>
        ((stopPortForward m' id now).1, some "context canceled")

/-- Struct `SavedConnectionInfo` (manager.go 753-761) — and, with the same
fields, `config.SavedConnection` (the persisted YAML entry). -/
structure SavedConnectionInfo where
  ns : String
  resourceType : String
  resourceName : String
  localPort : Nat
  remotePort : Nat
  wasActive : Bool
deriving DecidableEq, Repr

/-- The projection each registry record takes in
`GetAllConnectionsForSave` (manager.go 771-778): identity fields plus
`WasActive := Status == StatusActive`. -/
def Connection.toSaved (c : Connection) : SavedConnectionInfo :=
  { ns := c.ns
    resourceType := c.resourceType.str
    resourceName := c.resourceName
    localPort := c.localPort
    remotePort := c.remotePort
    wasActive := c.status = .active }

/-- Method `GetAllConnectionsForSave` (manager.go 764-782): the projection of
every registry entry, in map iteration order. -/
def getAllConnectionsForSave (m : Manager) : List SavedConnectionInfo :=
  m.connections.map (fun p => p.2.toSaved)

/-- Struct `config.SessionState` (the persisted session file). -/
structure SessionState where
  lastSaved : Nat
  connections : List SavedConnectionInfo
deriving DecidableEq, Repr

/-- The daemon's `saveState` (daemon.go 258-282) composed with
`SessionState.Save`: whatever the previously persisted state was, its
connection list is cleared and rebuilt wholesale from
`GetAllConnectionsForSave`, and the save timestamp is refreshed. -/
def saveState (_prior : SessionState) (m : Manager) (now : Nat) : SessionState :=
  { lastSaved := now, connections := getAllConnectionsForSave m }

/-- Function `LoadState` reading back the file written by `SessionState.Save`.
The YAML encode/decode pair (`yaml.Marshal` / `yaml.Unmarshal` from
gopkg.in/yaml.v3, external to this repository) is modelled as faithful:
loading returns exactly the state that was saved. -/
def loadState (saved : SessionState) : SessionState :=
  saved

/-- The resource type the restore loop assigns to a saved entry
(daemon.go 301-304): only the exact string `"service"` maps to a
service target, everything else to a pod target. -/
def SavedConnectionInfo.restoreRT (e : SavedConnectionInfo) : ResourceType :=
  if e.resourceType == "service" then .service else .pod

/-- The registry identity a restored entry ends up under. -/
def SavedConnectionInfo.restoreId (e : SavedConnectionInfo) : String :=
  makeID e.ns e.restoreRT e.resourceName e.localPort e.remotePort

/-- One iteration of the restore loop in the daemon's
`restoreConnections` (daemon.go 300-337): a `wasActive:false` entry is
added as a stopped placeholder; a `wasActive:true` entry is attempted
with a real start (the worker outcome supplied by `env`), falling back
to `AddStoppedConnection` when the start returned an error. -/
def restoreEntry (env : SavedConnectionInfo → WorkerOutcome) (now : Nat)
    (m : Manager) (e : SavedConnectionInfo) : Manager :=
  if !e.wasActive then
    addStoppedConnection m e.ns e.restoreRT e.resourceName e.localPort
      e.remotePort now
  else
    match startPortForwardFull m e.ns e.restoreRT e.resourceName e.localPort
        e.remotePort now (env e) with
    | (m', none) => m'
    | (m', some _) =>
        addStoppedConnection m' e.ns e.restoreRT e.resourceName e.localPort
          e.remotePort now

/-- The restore loop of `restoreConnections` over a loaded entry list.
Per-entry failures only bump the `failed` counter; the Go function
returns `nil` after the loop, so the result type carries no error. -/
def restoreConnections (env : SavedConnectionInfo → WorkerOutcome) (now : Nat)
    (m : Manager) (entries : List SavedConnectionInfo) : Manager :=
  entries.foldl (restoreEntry env now) m

/-! ## Service endpoint resolution (`runPortForward`, manager.go 225-340) -/

/-- Kubernetes `intstr.IntOrString`: a target port that is either a
concrete number or a named port. -/
inductive IntOrString where
  | num (n : Nat)
  | name (v : String)
deriving DecidableEq, Repr

/-- A `strconv.Atoi`-style decimal parse, as used by
`IntOrString.IntValue()` on a string-typed value: a non-empty all-digit
string parses to its decimal value, anything else to `none`. -/
def parseDec (s : String) : Option Nat :=
  if s.data ≠ [] ∧ s.data.all Char.isDigit then
    some (s.data.foldl (fun n c => n * 10 + (c.toNat - 48)) 0)
  else
    none

/-- Accessor `IntOrString.IntValue()`: the number itself, or the parse of the
string value with `0` on parse failure. -/
def IntOrString.intValue : IntOrString → Nat
  | .num n => n
  | .name v => (parseDec v).getD 0

/-- Accessor `IntOrString.String()`: the decimal rendering of the number, or the
string value itself. -/
def IntOrString.strValue : IntOrString → String
  | .num n => toString n
  | .name v => v

/-- One entry of `svc.Spec.Ports`. -/
structure ServicePort where
  port : Nat
  targetPort : IntOrString
deriving DecidableEq, Repr

/-- One entry of a container's `Ports`. -/
structure ContainerPort where
  portName : String
  containerPort : Nat
deriving DecidableEq, Repr

/-- One entry of `pod.Spec.Containers`. -/
structure Container where
  name : String
  ports : List ContainerPort
deriving DecidableEq, Repr

/-- A pod as seen by the backend selection loop: its name, its phase
(`pod.Status.Phase`, a string such as `"Running"`), and its container
specs. -/
structure PodInfo where
  name : String
  phase : String
  containers : List Container
deriving DecidableEq, Repr

/-- Errors of the service backend selection in `runPortForward`. -/
inductive ResolveErr where
  | noBackends
  | noRunningBackends
deriving DecidableEq, Repr

/-- The backend pod selection of `runPortForward` (manager.go 265-304):
an empty listing fails with `no pods found for service`; otherwise the
first pod in listing order whose phase is `Running` is selected, and if
none is running the selection fails with `no running pods found for
service`. -/
def selectBackendPod (pods : List PodInfo) : Except ResolveErr PodInfo :=
  if pods.isEmpty then .error .noBackends
  else
    match pods.find? (fun p => p.phase == "Running") with
    | some p => .ok p
    | none => .error .noRunningBackends

/-- The named-port scan of `runPortForward` (manager.go 322-333): every
container of the selected pod is visited in order; within a container
the first port whose name matches sets the target and stops the scan of
that container (the `break` leaves only the inner loop, so a later
container with a matching port name overwrites an earlier match). -/
def resolveNamedPort (namedPort : String) (containers : List Container)
    (current : Nat) : Nat :=
  containers.foldl
    (fun acc c =>
      match c.ports.find? (fun cp => cp.portName == namedPort) with
      | some cp => cp.containerPort
      | none => acc)
    current

/-- The target-port resolution of `runPortForward` (manager.go
306-340), starting from `targetPort := conn.RemotePort`: the first
service port whose `Port` equals the declared remote port is examined;
a non-zero `IntValue()` is used directly; otherwise a non-empty,
non-`"0"` `String()` is resolved against the pod's container ports;
when nothing resolves, the declared port itself remains. -/
def resolveTargetPort (remotePort : Nat) (ports : List ServicePort)
    (containers : List Container) : Nat :=
  match ports.find? (fun p => p.port == remotePort) with
  | none => remotePort
  | some p =>
    if p.targetPort.intValue ≠ 0 then
      p.targetPort.intValue
    else if p.targetPort.strValue ≠ "" ∧ p.targetPort.strValue ≠ "0" then
      resolveNamedPort p.targetPort.strValue containers remotePort
    else
      remotePort

/-! ## Association-list lemmas for the registry -/

theorem lookup_eraseConn_self (id : String) (l : List (String × Connection)) :
    (eraseConn id l).lookup id = none := by
  induction l with
  | nil => rfl
  | cons p t ih =>
    by_cases h : p.1 = id
    · simpa [eraseConn, List.filter_cons, h] using ih
    · have hb : (p.1 == id) = false := beq_false_of_ne h
      have hb' : (id == p.1) = false := beq_false_of_ne (Ne.symm h)
      simpa [eraseConn, List.filter_cons, hb, List.lookup, hb'] using ih

theorem lookup_eraseConn_ne (id id' : String) (h : id' ≠ id)
    (l : List (String × Connection)) :
    (eraseConn id l).lookup id' = l.lookup id' := by
  induction l with
  | nil => rfl
  | cons p t ih =>
    by_cases hk : p.1 = id
    · have hb : (p.1 == id) = true := beq_iff_eq.mpr hk
      have hb' : (id' == p.1) = false := beq_false_of_ne (by rw [hk]; exact h)
      simpa [eraseConn, List.filter_cons, hb, List.lookup, hb'] using ih
    · have hb : (p.1 == id) = false := beq_false_of_ne hk
      by_cases hk' : id' = p.1
      · simp [eraseConn, List.filter_cons, hb, List.lookup, beq_iff_eq.mpr hk']
      · have hb' : (id' == p.1) = false := beq_false_of_ne hk'
        simpa [eraseConn, List.filter_cons, hb, List.lookup, hb'] using ih

theorem filter_eraseConn_self (id : String) (l : List (String × Connection)) :
    (eraseConn id l).filter (fun p => p.1 == id) = [] := by
  induction l with
  | nil => rfl
  | cons p t ih =>
    by_cases h : p.1 = id
    · simpa [eraseConn, List.filter_cons, h] using ih
    · have hb : (p.1 == id) = false := beq_false_of_ne h
      simpa [eraseConn, List.filter_cons, hb] using ih

theorem find_setConn_self (m : Manager) (id : String)
    (f : Connection → Connection) :
    (setConn m id f).find id = (m.find id).map f := by
  show (m.connections.map _).lookup id = (m.connections.lookup id).map f
  induction m.connections with
  | nil => rfl
  | cons p t ih =>
    by_cases h : p.1 = id
    · have hb : (p.1 == id) = true := beq_iff_eq.mpr h
      have hb' : (id == p.1) = true := beq_iff_eq.mpr h.symm
      simp [List.lookup, hb, hb']
    · have hb : (p.1 == id) = false := beq_false_of_ne h
      have hb' : (id == p.1) = false := beq_false_of_ne (Ne.symm h)
      simpa [List.lookup, hb, hb'] using ih

theorem find_setConn_ne (m : Manager) (id id' : String) (h : id' ≠ id)
    (f : Connection → Connection) :
    (setConn m id f).find id' = m.find id' := by
  show (m.connections.map _).lookup id' = m.connections.lookup id'
  induction m.connections with
  | nil => rfl
  | cons p t ih =>
    by_cases hk : p.1 = id
    · have hb : (p.1 == id) = true := beq_iff_eq.mpr hk
      have hb' : (id' == p.1) = false := beq_false_of_ne (by rw [hk]; exact h)
      simpa [List.lookup, hb, hb'] using ih
    · have hb : (p.1 == id) = false := beq_false_of_ne hk
      by_cases hk' : id' = p.1
      · simp [List.lookup, hb, beq_iff_eq.mpr hk']
      · have hb' : (id' == p.1) = false := beq_false_of_ne hk'
        simpa [List.lookup, hb, hb'] using ih

theorem filter_eq_nil_of_not_mem_keys (id : String)
    (l : List (String × Connection)) (h : id ∉ l.map Prod.fst) :
    l.filter (fun p => p.1 == id) = [] := by
  induction l with
  | nil => rfl
  | cons p t ih =>
    have h1 : p.1 ≠ id := fun he =>
      h (he ▸ List.mem_map_of_mem Prod.fst (List.mem_cons_self p t))
    have h2 : id ∉ t.map Prod.fst := fun hm =>
      h (by rw [List.map_cons]; exact List.mem_cons_of_mem _ hm)
    simpa [List.filter_cons, beq_false_of_ne h1] using ih h2

theorem length_filter_key_of_lookup (l : List (String × Connection))
    (id : String) (c : Connection) (hnd : (l.map Prod.fst).Nodup)
    (h : l.lookup id = some c) :
    (l.filter (fun p => p.1 == id)).length = 1 := by
  induction l with
  | nil => exact Option.noConfusion h
  | cons p t ih =>
    rw [List.map_cons, List.nodup_cons] at hnd
    by_cases hk : id = p.1
    · have hfil : t.filter (fun q => q.1 == id) = [] :=
        filter_eq_nil_of_not_mem_keys id t (hk ▸ hnd.1)
      simp [List.filter_cons, beq_iff_eq.mpr hk.symm, hfil]
    · have hb : (id == p.1) = false := beq_false_of_ne hk
      have ht : t.lookup id = some c := by simpa [List.lookup, hb] using h
      have hb' : (p.1 == id) = false := beq_false_of_ne (Ne.symm hk)
      simpa [List.filter_cons, hb'] using ih hnd.2 ht

theorem countId_eq_one_of_lookup (m : Manager) (id : String) (c : Connection)
    (hnd : (m.connections.map Prod.fst).Nodup) (h : m.find id = some c) :
    m.countId id = 1 :=
  length_filter_key_of_lookup m.connections id c hnd h

theorem lookup_cons_self (id : String) (c : Connection)
    (l : List (String × Connection)) :
    ((id, c) :: l).lookup id = some c := by
  simp [List.lookup]

theorem stopConnUpdate_idem (t1 t2 : Nat) (c : Connection) :
    stopConnUpdate t2 (stopConnUpdate t1 c) = stopConnUpdate t1 c := by
  unfold stopConnUpdate
  by_cases h : c.status = .stopped
  · simp [h]
  · simp [h]

theorem mapConn_mapConn (id : String) (f g : Connection → Connection)
    (l : List (String × Connection)) :
    (l.map (fun p => bif p.1 == id then (p.1, f p.2) else p)).map
        (fun p => bif p.1 == id then (p.1, g p.2) else p) =
      l.map (fun p => bif p.1 == id then (p.1, g (f p.2)) else p) := by
  rw [List.map_map]
  have hfun : ((fun p : String × Connection =>
        bif p.1 == id then (p.1, g p.2) else p) ∘
      (fun p : String × Connection =>
        bif p.1 == id then (p.1, f p.2) else p)) =
      (fun p : String × Connection =>
        bif p.1 == id then (p.1, g (f p.2)) else p) := by
    funext p
    cases hb : p.1 == id
    · simp [Function.comp, hb]
    · simp [Function.comp, hb]
  rw [hfun]

theorem setConn_setConn (m : Manager) (id : String)
    (f g : Connection → Connection) :
    setConn (setConn m id f) id g = setConn m id (fun c => g (f c)) :=
  congrArg Manager.mk (mapConn_mapConn id f g m.connections)

/-! ## Claim theorems -/

/-- C1: starting a port-forward whose identity already has a registry
record in status `Starting` or `Active` fails with the `AlreadyActive`
error and leaves the registry untouched — still holding exactly the one
existing record for that identity. -/
theorem c1_duplicate_start_rejected (m : Manager) (ns : String)
    (rt : ResourceType) (name : String) (lp rp now : Nat) (ex : Connection)
    (hnd : (m.connections.map Prod.fst).Nodup)
    (hfind : m.find (makeID ns rt name lp rp) = some ex)
    (hstatus : ex.status = .active ∨ ex.status = .starting) :
    startPortForwardLock m ns rt name lp rp now =
      (m, .error (.alreadyActive (makeID ns rt name lp rp))) ∧
    m.countId (makeID ns rt name lp rp) = 1 := by
  refine ⟨?_, countId_eq_one_of_lookup m _ ex hnd hfind⟩
  rcases hstatus with hst | hst <;>
    simp [startPortForwardLock, hfind, hst]

/-- C1 witness: a registry holding one `Active` record rejects a start
for the same identity and keeps that single record. -/
theorem c1_duplicate_start_rejected_witness :
    startPortForwardLock
        ⟨[("d/pod/api:8080->80",
          { id := "d/pod/api:8080->80", ns := "d", resourceType := .pod,
            resourceName := "api", localPort := 8080, remotePort := 80,
            status := .active, errMsg := "", startedAt := 1, stoppedAt := 0,
            reconnectCount := 0, autoReconnect := true,
            stopChanClosed := false, hasCancelFunc := true,
            cancelled := false })]⟩ "d" .pod "api" 8080 80 2 =
      (⟨[("d/pod/api:8080->80",
          { id := "d/pod/api:8080->80", ns := "d", resourceType := .pod,
            resourceName := "api", localPort := 8080, remotePort := 80,
            status := .active, errMsg := "", startedAt := 1, stoppedAt := 0,
            reconnectCount := 0, autoReconnect := true,
            stopChanClosed := false, hasCancelFunc := true,
            cancelled := false })]⟩,
       .error (.alreadyActive "d/pod/api:8080->80")) ∧
    Manager.countId
      ⟨[("d/pod/api:8080->80",
          { id := "d/pod/api:8080->80", ns := "d", resourceType := .pod,
            resourceName := "api", localPort := 8080, remotePort := 80,
            status := .active, errMsg := "", startedAt := 1, stoppedAt := 0,
            reconnectCount := 0, autoReconnect := true,
            stopChanClosed := false, hasCancelFunc := true,
            cancelled := false })]⟩ "d/pod/api:8080->80" = 1 := by
  have h := c1_duplicate_start_rejected
    ⟨[("d/pod/api:8080->80",
      { id := "d/pod/api:8080->80", ns := "d", resourceType := .pod,
        resourceName := "api", localPort := 8080, remotePort := 80,
        status := .active, errMsg := "", startedAt := 1, stoppedAt := 0,
        reconnectCount := 0, autoReconnect := true,
        stopChanClosed := false, hasCancelFunc := true,
        cancelled := false })]⟩
    "d" .pod "api" 8080 80 2
    { id := "d/pod/api:8080->80", ns := "d", resourceType := .pod,
      resourceName := "api", localPort := 8080, remotePort := 80,
      status := .active, errMsg := "", startedAt := 1, stoppedAt := 0,
      reconnectCount := 0, autoReconnect := true,
      stopChanClosed := false, hasCancelFunc := true, cancelled := false }
    (by decide) (by rfl) (Or.inl rfl)
  simpa using h

/-- C8: starting an identity whose existing record is terminal
(`Stopped` or `Error`) succeeds: the old record is evicted with its
cancellation triggered (when it had a cancellable context), and the
registry ends with exactly one record for the identity — the fresh
`Starting` one. -/
theorem c8_restart_replaces_terminal (m : Manager) (ns : String)
    (rt : ResourceType) (name : String) (lp rp now : Nat) (ex : Connection)
    (hfind : m.find (makeID ns rt name lp rp) = some ex)
    (hstatus : ex.status = .stopped ∨ ex.status = .error) :
    startPortForwardLock m ns rt name lp rp now =
      (⟨(makeID ns rt name lp rp,
          newStartingConnection ns rt name lp rp now) ::
            eraseConn (makeID ns rt name lp rp) m.connections⟩,
        .ok (some { ex with
          cancelled := ex.cancelled || ex.hasCancelFunc })) ∧
    (startPortForwardLock m ns rt name lp rp now).1.countId
      (makeID ns rt name lp rp) = 1 ∧
    (startPortForwardLock m ns rt name lp rp now).1.find
      (makeID ns rt name lp rp) =
        some (newStartingConnection ns rt name lp rp now) := by
  have hmain : startPortForwardLock m ns rt name lp rp now =
      (⟨(makeID ns rt name lp rp,
          newStartingConnection ns rt name lp rp now) ::
            eraseConn (makeID ns rt name lp rp) m.connections⟩,
        .ok (some { ex with
          cancelled := ex.cancelled || ex.hasCancelFunc })) := by
    rcases hstatus with hst | hst <;>
      simp [startPortForwardLock, hfind, hst]
  refine ⟨hmain, ?_, ?_⟩
  · rw [hmain]
    show (List.filter _ _).length = 1
    rw [List.filter_cons]
    simp [filter_eraseConn_self]
  · rw [hmain]
    exact lookup_cons_self _ _ _

/-- C8 witness: restarting over a `Stopped` record succeeds and leaves
one `Starting` record. -/
theorem c8_restart_replaces_terminal_witness :
    startPortForwardLock
        ⟨[("d/pod/api:8080->80",
          { id := "d/pod/api:8080->80", ns := "d", resourceType := .pod,
            resourceName := "api", localPort := 8080, remotePort := 80,
            status := .stopped, errMsg := "", startedAt := 1, stoppedAt := 3,
            reconnectCount := 0, autoReconnect := true,
            stopChanClosed := true, hasCancelFunc := true,
            cancelled := false })]⟩ "d" .pod "api" 8080 80 9 =
      (⟨[("d/pod/api:8080->80", newStartingConnection "d" .pod "api" 8080 80 9)]⟩,
        .ok (some
          { id := "d/pod/api:8080->80", ns := "d", resourceType := .pod,
            resourceName := "api", localPort := 8080, remotePort := 80,
            status := .stopped, errMsg := "", startedAt := 1, stoppedAt := 3,
            reconnectCount := 0, autoReconnect := true,
            stopChanClosed := true, hasCancelFunc := true,
            cancelled := true })) := by
  have h := c8_restart_replaces_terminal
    ⟨[("d/pod/api:8080->80",
      { id := "d/pod/api:8080->80", ns := "d", resourceType := .pod,
        resourceName := "api", localPort := 8080, remotePort := 80,
        status := .stopped, errMsg := "", startedAt := 1, stoppedAt := 3,
        reconnectCount := 0, autoReconnect := true,
        stopChanClosed := true, hasCancelFunc := true,
        cancelled := false })]⟩
    "d" .pod "api" 8080 80 9
    { id := "d/pod/api:8080->80", ns := "d", resourceType := .pod,
      resourceName := "api", localPort := 8080, remotePort := 80,
      status := .stopped, errMsg := "", startedAt := 1, stoppedAt := 3,
      reconnectCount := 0, autoReconnect := true,
      stopChanClosed := true, hasCancelFunc := true, cancelled := false }
    (by rfl) (Or.inl rfl)
  exact h.1

/-- C10: `StopPortForward`, `RemoveConnection` and `DeleteConnection`
each return a `connection not found` error for an identity with no
registry record, and leave the registry unchanged. -/
theorem c10_unknown_identity_not_found (m : Manager) (id : String)
    (now : Nat) (h : m.find id = none) :
    stopPortForward m id now = (m, .error (.notFound id)) ∧
    removeConnection m id = (m, .error (.notFound id)) ∧
    deleteConnection m id now = (m, .error (.notFound id), none) := by
  unfold stopPortForward removeConnection deleteConnection
  simp [h]

/-- C10 witness: stopping, removing or deleting an unknown identity on
an empty registry errors and changes nothing. -/
theorem c10_unknown_identity_not_found_witness :
    stopPortForward ⟨[]⟩ "d/pod/x:1->2" 0 =
      (⟨[]⟩, .error (.notFound "d/pod/x:1->2")) ∧
    removeConnection ⟨[]⟩ "d/pod/x:1->2" =
      (⟨[]⟩, .error (.notFound "d/pod/x:1->2")) ∧
    deleteConnection ⟨[]⟩ "d/pod/x:1->2" 0 =
      (⟨[]⟩, .error (.notFound "d/pod/x:1->2"), none) :=
  c10_unknown_identity_not_found ⟨[]⟩ "d/pod/x:1->2" 0 rfl

/-- C5: `StopPortForward` is idempotent — the first stop of a
non-stopped record succeeds and stamps the stop time; a second stop
succeeds as a pure no-op (`nil` error, no mutation), so the record ends
`Stopped` with the single stop timestamp of the first call and the stop
channel closed exactly once. -/
theorem c5_stop_idempotent (m : Manager) (id : String) (c : Connection)
    (t1 t2 : Nat) (hfind : m.find id = some c)
    (hne : c.status ≠ .stopped) :
    stopPortForward m id t1 =
      (setConn m id (stopConnUpdate t1), .ok ()) ∧
    (setConn m id (stopConnUpdate t1)).find id =
      some { c with
        status := .stopped
        stoppedAt := t1
        cancelled := c.cancelled || c.hasCancelFunc
        stopChanClosed := true } ∧
    stopPortForward (setConn m id (stopConnUpdate t1)) id t2 =
      (setConn m id (stopConnUpdate t1), .ok ()) := by
  have h1 : stopPortForward m id t1 =
      (setConn m id (stopConnUpdate t1), .ok ()) := by
    unfold stopPortForward
    simp [hfind]
  have hval : (setConn m id (stopConnUpdate t1)).find id =
      some (stopConnUpdate t1 c) := by
    rw [find_setConn_self, hfind]; rfl
  have hupd : stopConnUpdate t1 c =
      { c with
        status := .stopped
        stoppedAt := t1
        cancelled := c.cancelled || c.hasCancelFunc
        stopChanClosed := true } := by
    unfold stopConnUpdate
    simp [hne]
  refine ⟨h1, by rw [hval, hupd], ?_⟩
  unfold stopPortForward
  rw [hval]
  have hnomut : setConn (setConn m id (stopConnUpdate t1)) id
      (stopConnUpdate t2) = setConn m id (stopConnUpdate t1) := by
    rw [setConn_setConn]
    have hf : (fun c => stopConnUpdate t2 (stopConnUpdate t1 c)) =
        stopConnUpdate t1 := by
      funext x
      exact stopConnUpdate_idem t1 t2 x
    rw [hf]
  simp [hnomut]

/-- C5 witness: stopping an `Active` record twice — second call is a
no-op success, one stop timestamp. -/
theorem c5_stop_idempotent_witness :
    stopPortForward
        ⟨[("d/pod/api:8080->80",
          { id := "d/pod/api:8080->80", ns := "d", resourceType := .pod,
            resourceName := "api", localPort := 8080, remotePort := 80,
            status := .active, errMsg := "", startedAt := 1, stoppedAt := 0,
            reconnectCount := 0, autoReconnect := true,
            stopChanClosed := false, hasCancelFunc := true,
            cancelled := false })]⟩ "d/pod/api:8080->80" 4 =
      (setConn
        ⟨[("d/pod/api:8080->80",
          { id := "d/pod/api:8080->80", ns := "d", resourceType := .pod,
            resourceName := "api", localPort := 8080, remotePort := 80,
            status := .active, errMsg := "", startedAt := 1, stoppedAt := 0,
            reconnectCount := 0, autoReconnect := true,
            stopChanClosed := false, hasCancelFunc := true,
            cancelled := false })]⟩ "d/pod/api:8080->80"
        (stopConnUpdate 4), .ok ()) ∧
    (setConn
        ⟨[("d/pod/api:8080->80",
          { id := "d/pod/api:8080->80", ns := "d", resourceType := .pod,
            resourceName := "api", localPort := 8080, remotePort := 80,
            status := .active, errMsg := "", startedAt := 1, stoppedAt := 0,
            reconnectCount := 0, autoReconnect := true,
            stopChanClosed := false, hasCancelFunc := true,
            cancelled := false })]⟩ "d/pod/api:8080->80"
        (stopConnUpdate 4)).find "d/pod/api:8080->80" =
      some
        { id := "d/pod/api:8080->80", ns := "d", resourceType := .pod,
          resourceName := "api", localPort := 8080, remotePort := 80,
          status := .stopped, errMsg := "", startedAt := 1, stoppedAt := 4,
          reconnectCount := 0, autoReconnect := true,
          stopChanClosed := true, hasCancelFunc := true,
          cancelled := true } ∧
    stopPortForward
        (setConn
          ⟨[("d/pod/api:8080->80",
            { id := "d/pod/api:8080->80", ns := "d", resourceType := .pod,
              resourceName := "api", localPort := 8080, remotePort := 80,
              status := .active, errMsg := "", startedAt := 1, stoppedAt := 0,
              reconnectCount := 0, autoReconnect := true,
              stopChanClosed := false, hasCancelFunc := true,
              cancelled := false })]⟩ "d/pod/api:8080->80"
          (stopConnUpdate 4)) "d/pod/api:8080->80" 7 =
      (setConn
        ⟨[("d/pod/api:8080->80",
          { id := "d/pod/api:8080->80", ns := "d", resourceType := .pod,
            resourceName := "api", localPort := 8080, remotePort := 80,
            status := .active, errMsg := "", startedAt := 1, stoppedAt := 0,
            reconnectCount := 0, autoReconnect := true,
            stopChanClosed := false, hasCancelFunc := true,
            cancelled := false })]⟩ "d/pod/api:8080->80"
        (stopConnUpdate 4), .ok ()) := by
  have h := c5_stop_idempotent
    ⟨[("d/pod/api:8080->80",
      { id := "d/pod/api:8080->80", ns := "d", resourceType := .pod,
        resourceName := "api", localPort := 8080, remotePort := 80,
        status := .active, errMsg := "", startedAt := 1, stoppedAt := 0,
        reconnectCount := 0, autoReconnect := true,
        stopChanClosed := false, hasCancelFunc := true,
        cancelled := false })]⟩ "d/pod/api:8080->80"
    { id := "d/pod/api:8080->80", ns := "d", resourceType := .pod,
      resourceName := "api", localPort := 8080, remotePort := 80,
      status := .active, errMsg := "", startedAt := 1, stoppedAt := 0,
      reconnectCount := 0, autoReconnect := true,
      stopChanClosed := false, hasCancelFunc := true, cancelled := false }
    4 7 (by rfl) (by decide)
  exact h

/-- C2 counterexample: the claim says a stop arriving after `Error` has
been recorded leaves the status `Error`; on this concrete registry
(one record in status `Error`), `StopPortForward` changes the status,
so the claimed property is false. -/
theorem c2_counterexample :
    ¬ ((((stopPortForward
        ⟨[("d/pod/api:8080->80",
          { id := "d/pod/api:8080->80", ns := "d", resourceType := .pod,
            resourceName := "api", localPort := 8080, remotePort := 80,
            status := .error, errMsg := "connection refused",
            startedAt := 5, stoppedAt := 9, reconnectCount := 0,
            autoReconnect := true, stopChanClosed := false,
            hasCancelFunc := true, cancelled := false })]⟩
        "d/pod/api:8080->80" 12).1.find
        "d/pod/api:8080->80").map Connection.status) = some Status.error) := by
  decide

/-- C2 (amended): an explicit stop that arrives after `Error` has been
recorded succeeds and overwrites the status to `Stopped`, stamping a
new stop time, cancelling the context and closing the stop channel; the
error string is preserved but the `Error` status is not (only an
already-`Stopped` status is left untouched by `StopPortForward`). -/
theorem c2_stop_overwrites_error (m : Manager) (id : String)
    (c : Connection) (now : Nat) (hfind : m.find id = some c)
    (herr : c.status = .error) :
    stopPortForward m id now =
      (setConn m id (stopConnUpdate now), .ok ()) ∧
    (setConn m id (stopConnUpdate now)).find id =
      some { c with
        status := .stopped
        stoppedAt := now
        cancelled := c.cancelled || c.hasCancelFunc
        stopChanClosed := true } ∧
    ((setConn m id (stopConnUpdate now)).find id).map Connection.errMsg =
      some c.errMsg := by
  have hne : c.status ≠ .stopped := by simp [herr]
  have h1 : stopPortForward m id now =
      (setConn m id (stopConnUpdate now), .ok ()) := by
    unfold stopPortForward
    simp [hfind]
  have hval : (setConn m id (stopConnUpdate now)).find id =
      some (stopConnUpdate now c) := by
    rw [find_setConn_self, hfind]; rfl
  have hupd : stopConnUpdate now c =
      { c with
        status := .stopped
        stoppedAt := now
        cancelled := c.cancelled || c.hasCancelFunc
        stopChanClosed := true } := by
    unfold stopConnUpdate
    simp [hne]
  exact ⟨h1, by rw [hval, hupd], by rw [hval, hupd]; rfl⟩

/-- C2 amended-claim witness: stopping a concrete `Error` record. -/
theorem c2_stop_overwrites_error_witness :
    stopPortForward
        ⟨[("d/pod/api:8080->80",
          { id := "d/pod/api:8080->80", ns := "d", resourceType := .pod,
            resourceName := "api", localPort := 8080, remotePort := 80,
            status := .error, errMsg := "connection refused",
            startedAt := 5, stoppedAt := 9, reconnectCount := 0,
            autoReconnect := true, stopChanClosed := false,
            hasCancelFunc := true, cancelled := false })]⟩
        "d/pod/api:8080->80" 12 =
      (setConn
        ⟨[("d/pod/api:8080->80",
          { id := "d/pod/api:8080->80", ns := "d", resourceType := .pod,
            resourceName := "api", localPort := 8080, remotePort := 80,
            status := .error, errMsg := "connection refused",
            startedAt := 5, stoppedAt := 9, reconnectCount := 0,
            autoReconnect := true, stopChanClosed := false,
            hasCancelFunc := true, cancelled := false })]⟩
        "d/pod/api:8080->80" (stopConnUpdate 12), .ok ()) ∧
    (setConn
        ⟨[("d/pod/api:8080->80",
          { id := "d/pod/api:8080->80", ns := "d", resourceType := .pod,
            resourceName := "api", localPort := 8080, remotePort := 80,
            status := .error, errMsg := "connection refused",
            startedAt := 5, stoppedAt := 9, reconnectCount := 0,
            autoReconnect := true, stopChanClosed := false,
            hasCancelFunc := true, cancelled := false })]⟩
        "d/pod/api:8080->80" (stopConnUpdate 12)).find
      "d/pod/api:8080->80" =
      some
        { id := "d/pod/api:8080->80", ns := "d", resourceType := .pod,
          resourceName := "api", localPort := 8080, remotePort := 80,
          status := .stopped, errMsg := "connection refused",
          startedAt := 5, stoppedAt := 12, reconnectCount := 0,
          autoReconnect := true, stopChanClosed := true,
          hasCancelFunc := true, cancelled := true } ∧
    ((setConn
        ⟨[("d/pod/api:8080->80",
          { id := "d/pod/api:8080->80", ns := "d", resourceType := .pod,
            resourceName := "api", localPort := 8080, remotePort := 80,
            status := .error, errMsg := "connection refused",
            startedAt := 5, stoppedAt := 9, reconnectCount := 0,
            autoReconnect := true, stopChanClosed := false,
            hasCancelFunc := true, cancelled := false })]⟩
        "d/pod/api:8080->80" (stopConnUpdate 12)).find
      "d/pod/api:8080->80").map Connection.errMsg =
      some "connection refused" := by
  have h := c2_stop_overwrites_error
    ⟨[("d/pod/api:8080->80",
      { id := "d/pod/api:8080->80", ns := "d", resourceType := .pod,
        resourceName := "api", localPort := 8080, remotePort := 80,
        status := .error, errMsg := "connection refused",
        startedAt := 5, stoppedAt := 9, reconnectCount := 0,
        autoReconnect := true, stopChanClosed := false,
        hasCancelFunc := true, cancelled := false })]⟩
    "d/pod/api:8080->80"
    { id := "d/pod/api:8080->80", ns := "d", resourceType := .pod,
      resourceName := "api", localPort := 8080, remotePort := 80,
      status := .error, errMsg := "connection refused",
      startedAt := 5, stoppedAt := 9, reconnectCount := 0,
      autoReconnect := true, stopChanClosed := false,
      hasCancelFunc := true, cancelled := false }
    12 (by rfl) (by rfl)
  exact h

/-- C3 counterexample: the claim says the remove operation — including
the IPC remove command — fails with `CannotRemoveActive` on an `Active`
record; on this concrete registry, `DeleteConnection` (the function the
IPC `remove` handler dispatches to) succeeds and removes the record, so
the claimed property is false. -/
theorem c3_counterexample :
    (deleteConnection
        ⟨[("d/svc/db:5432->5432",
          { id := "d/svc/db:5432->5432", ns := "d",
            resourceType := .service, resourceName := "db",
            localPort := 5432, remotePort := 5432, status := .active,
            errMsg := "", startedAt := 1, stoppedAt := 0,
            reconnectCount := 0, autoReconnect := true,
            stopChanClosed := false, hasCancelFunc := true,
            cancelled := false })]⟩ "d/svc/db:5432->5432" 7).2.1 =
      .ok () ∧
    (deleteConnection
        ⟨[("d/svc/db:5432->5432",
          { id := "d/svc/db:5432->5432", ns := "d",
            resourceType := .service, resourceName := "db",
            localPort := 5432, remotePort := 5432, status := .active,
            errMsg := "", startedAt := 1, stoppedAt := 0,
            reconnectCount := 0, autoReconnect := true,
            stopChanClosed := false, hasCancelFunc := true,
            cancelled := false })]⟩ "d/svc/db:5432->5432" 7).1 =
      ⟨[]⟩ ∧
    handleRemove
        ⟨[("d/svc/db:5432->5432",
          { id := "d/svc/db:5432->5432", ns := "d",
            resourceType := .service, resourceName := "db",
            localPort := 5432, remotePort := 5432, status := .active,
            errMsg := "", startedAt := 1, stoppedAt := 0,
            reconnectCount := 0, autoReconnect := true,
            stopChanClosed := false, hasCancelFunc := true,
            cancelled := false })]⟩ "d/svc/db:5432->5432" 7 =
      (⟨[]⟩, true) := by
  refine ⟨rfl, rfl, rfl⟩

/-- C3 (amended): of the two removal operations, only
`RemoveConnection` rejects a live record: it fails with
`cannot remove active connection` on `Active`/`Starting` and otherwise
deletes the entry; `DeleteConnection` — the operation the IPC `remove`
command dispatches to — never rejects an existing record: it stops a
live record and deletes the entry, and `handleRemove` reports success. -/
theorem c3_remove_vs_delete (m : Manager) (id : String) (c : Connection)
    (now : Nat) (hfind : m.find id = some c) :
    ((c.status = .active ∨ c.status = .starting) →
      removeConnection m id = (m, .error .cannotRemoveActive)) ∧
    (¬(c.status = .active ∨ c.status = .starting) →
      removeConnection m id = (⟨eraseConn id m.connections⟩, .ok ()) ∧
      (Manager.mk (eraseConn id m.connections)).find id = none) ∧
    (deleteConnection m id now).2.1 = .ok () ∧
    (deleteConnection m id now).1 = ⟨eraseConn id m.connections⟩ ∧
    (deleteConnection m id now).1.find id = none ∧
    handleRemove m id now = (⟨eraseConn id m.connections⟩, true) := by
  refine ⟨?_, ?_, ?_, ?_, ?_, ?_⟩
  · intro hs
    unfold removeConnection
    simp [hfind, hs]
  · intro hns
    refine ⟨?_, ?_⟩
    · unfold removeConnection
      simp [hfind, hns]
    · exact lookup_eraseConn_self id m.connections
  · simp [deleteConnection, hfind]
  · simp [deleteConnection, hfind]
  · have h1 : (deleteConnection m id now).1 =
        ⟨eraseConn id m.connections⟩ := by
      simp [deleteConnection, hfind]
    rw [h1]
    exact lookup_eraseConn_self id m.connections
  · simp [handleRemove, deleteConnection, hfind]

/-- C3 amended-claim witness: a `Stopped` record is removable through
`RemoveConnection` and an `Active` record is rejected by it, while
`DeleteConnection` removes either. -/
theorem c3_remove_vs_delete_witness :
    (removeConnection
        ⟨[("d/svc/db:5432->5432",
          { id := "d/svc/db:5432->5432", ns := "d",
            resourceType := .service, resourceName := "db",
            localPort := 5432, remotePort := 5432, status := .active,
            errMsg := "", startedAt := 1, stoppedAt := 0,
            reconnectCount := 0, autoReconnect := true,
            stopChanClosed := false, hasCancelFunc := true,
            cancelled := false })]⟩ "d/svc/db:5432->5432" =
      (⟨[("d/svc/db:5432->5432",
          { id := "d/svc/db:5432->5432", ns := "d",
            resourceType := .service, resourceName := "db",
            localPort := 5432, remotePort := 5432, status := .active,
            errMsg := "", startedAt := 1, stoppedAt := 0,
            reconnectCount := 0, autoReconnect := true,
            stopChanClosed := false, hasCancelFunc := true,
            cancelled := false })]⟩, .error .cannotRemoveActive)) ∧
    (deleteConnection
        ⟨[("d/svc/db:5432->5432",
          { id := "d/svc/db:5432->5432", ns := "d",
            resourceType := .service, resourceName := "db",
            localPort := 5432, remotePort := 5432, status := .active,
            errMsg := "", startedAt := 1, stoppedAt := 0,
            reconnectCount := 0, autoReconnect := true,
            stopChanClosed := false, hasCancelFunc := true,
            cancelled := false })]⟩ "d/svc/db:5432->5432" 7).2.1 =
      .ok () := by
  have h := c3_remove_vs_delete
    ⟨[("d/svc/db:5432->5432",
      { id := "d/svc/db:5432->5432", ns := "d",
        resourceType := .service, resourceName := "db",
        localPort := 5432, remotePort := 5432, status := .active,
        errMsg := "", startedAt := 1, stoppedAt := 0,
        reconnectCount := 0, autoReconnect := true,
        stopChanClosed := false, hasCancelFunc := true,
        cancelled := false })]⟩ "d/svc/db:5432->5432"
    { id := "d/svc/db:5432->5432", ns := "d",
      resourceType := .service, resourceName := "db",
      localPort := 5432, remotePort := 5432, status := .active,
      errMsg := "", startedAt := 1, stoppedAt := 0,
      reconnectCount := 0, autoReconnect := true,
      stopChanClosed := false, hasCancelFunc := true,
      cancelled := false } 7 (by rfl)
  exact ⟨h.1 (Or.inl rfl), h.2.2.1⟩

theorem resolveNamedPort_cons (nm : String) (c : Container)
    (t : List Container) (acc : Nat) :
    resolveNamedPort nm (c :: t) acc =
      resolveNamedPort nm t
        (match c.ports.find? (fun cp => cp.portName == nm) with
          | some cp => cp.containerPort
          | none => acc) := rfl

theorem resolveNamedPort_no_match (nm : String) (cs : List Container)
    (acc : Nat)
    (h : ∀ c ∈ cs, c.ports.find? (fun cp => cp.portName == nm) = none) :
    resolveNamedPort nm cs acc = acc := by
  induction cs generalizing acc with
  | nil => rfl
  | cons c t ih =>
    rw [resolveNamedPort_cons, h c (List.mem_cons_self c t)]
    exact ih acc (fun c' hm => h c' (List.mem_cons_of_mem c hm))

theorem resolveNamedPort_last_match (nm : String) (cs1 : List Container)
    (c : Container) (cs2 : List Container) (cp : ContainerPort) (acc : Nat)
    (hc : c.ports.find? (fun q => q.portName == nm) = some cp)
    (h2 : ∀ c' ∈ cs2, c'.ports.find? (fun q => q.portName == nm) = none) :
    resolveNamedPort nm (cs1 ++ c :: cs2) acc = cp.containerPort := by
  induction cs1 generalizing acc with
  | nil =>
    rw [List.nil_append, resolveNamedPort_cons, hc]
    exact resolveNamedPort_no_match nm cs2 cp.containerPort h2
  | cons d t ih =>
    rw [List.cons_append, resolveNamedPort_cons]
    exact ih _

/-- C4: target-port resolution for a service port.  When no service
port matches the declared port, the declared port itself is used.  When
a matching entry carries a numeric (non-zero) target port, that number
is used, independent of the pod's containers.  When it carries a named
port, the scan of the selected pod's containers yields the container
port bearing that name (the last matching container wins, first
matching port within it); if no container port bears the name, the
declared port is the silent fallback. -/
theorem c4_target_port_resolution (rp : Nat) (ports : List ServicePort) :
    (ports.find? (fun p => p.port == rp) = none →
      ∀ containers, resolveTargetPort rp ports containers = rp) ∧
    (∀ sp n, ports.find? (fun p => p.port == rp) = some sp →
      sp.targetPort = .num n → n ≠ 0 →
      ∀ containers, resolveTargetPort rp ports containers = n) ∧
    (∀ sp nm cs1 c cs2 cp,
      ports.find? (fun p => p.port == rp) = some sp →
      sp.targetPort = .name nm → parseDec nm = none → nm ≠ "" →
      c.ports.find? (fun q => q.portName == nm) = some cp →
      (∀ c' ∈ cs2, c'.ports.find? (fun q => q.portName == nm) = none) →
      resolveTargetPort rp ports (cs1 ++ c :: cs2) = cp.containerPort) ∧
    (∀ sp nm containers,
      ports.find? (fun p => p.port == rp) = some sp →
      sp.targetPort = .name nm → parseDec nm = none → nm ≠ "" →
      (∀ c' ∈ containers,
        c'.ports.find? (fun q => q.portName == nm) = none) →
      resolveTargetPort rp ports containers = rp) := by
  have hname0 : ∀ nm : String, parseDec nm = none → nm ≠ "0" := by
    intro nm hn he
    subst he
    rw [show parseDec "0" = some 0 by decide] at hn
    exact Option.noConfusion hn
  refine ⟨?_, ?_, ?_, ?_⟩
  · intro hf containers
    simp [resolveTargetPort, hf]
  · intro sp n hf htp hn containers
    simp [resolveTargetPort, hf, htp, IntOrString.intValue, hn]
  · intro sp nm cs1 c cs2 cp hf htp hn hE hc h2
    have h0 : nm ≠ "0" := hname0 nm hn
    simp only [resolveTargetPort, hf, htp, IntOrString.intValue,
      IntOrString.strValue, hn, Option.getD_none]
    rw [if_neg (by simp), if_pos ⟨hE, h0⟩]
    exact resolveNamedPort_last_match nm cs1 c cs2 cp rp hc h2
  · intro sp nm containers hf htp hn hE hnone
    have h0 : nm ≠ "0" := hname0 nm hn
    simp only [resolveTargetPort, hf, htp, IntOrString.intValue,
      IntOrString.strValue, hn, Option.getD_none]
    rw [if_neg (by simp), if_pos ⟨hE, h0⟩]
    exact resolveNamedPort_no_match nm containers rp hnone

/-- C4 witness: the spec's two examples — service port `80` with named
target `"http"` resolving through a backend container port `http:8000`
to `8000`, and the same declared port with numeric target `8000`
resolving to `8000` with no pod consulted. -/
theorem c4_target_port_resolution_witness :
    resolveTargetPort 80
      [{ port := 80, targetPort := .name "http" }]
      [{ name := "app", ports := [{ portName := "http", containerPort := 8000 }] }] = 8000 ∧
    resolveTargetPort 80 [{ port := 80, targetPort := .num 8000 }] [] = 8000 := by
  constructor
  · have h := (c4_target_port_resolution 80
      [{ port := 80, targetPort := .name "http" }]).2.2.1
      { port := 80, targetPort := .name "http" } "http" []
      { name := "app", ports := [{ portName := "http", containerPort := 8000 }] }
      [] { portName := "http", containerPort := 8000 }
      rfl rfl (by decide) (by decide) rfl (by intro c' hm; cases hm)
    simpa using h
  · exact (c4_target_port_resolution 80
      [{ port := 80, targetPort := .num 8000 }]).2.1
      { port := 80, targetPort := .num 8000 } 8000 rfl rfl (by decide) []

theorem find?_running_append_no_match (l1 : List PodInfo) (p : PodInfo)
    (l2 : List PodInfo) (h1 : ∀ q ∈ l1, q.phase ≠ "Running")
    (hp : p.phase = "Running") :
    (l1 ++ p :: l2).find? (fun q => q.phase == "Running") = some p := by
  induction l1 with
  | nil =>
    rw [List.nil_append]
    exact List.find?_cons_of_pos _ (by simp [hp])
  | cons d t ih =>
    rw [List.cons_append]
    rw [List.find?_cons_of_neg _ (by simp [h1 d (List.mem_cons_self d t)])]
    exact ih (fun q hq => h1 q (List.mem_cons_of_mem d hq))

/-- C7: backend selection for a service fails closed — a non-empty pod
listing with no pod in `Running` phase yields the
`no running pods found for service` error; a successful selection is
always a pod in `Running` phase from the listing; and the pod selected
is the first running pod in listing order. -/
theorem c7_service_fails_closed (pods : List PodInfo) :
    (pods ≠ [] → (∀ p ∈ pods, p.phase ≠ "Running") →
      selectBackendPod pods = .error .noRunningBackends) ∧
    (∀ p, selectBackendPod pods = .ok p →
      p.phase = "Running" ∧ p ∈ pods) ∧
    (∀ l1 p l2, pods = l1 ++ p :: l2 → p.phase = "Running" →
      (∀ q ∈ l1, q.phase ≠ "Running") →
      selectBackendPod pods = .ok p) := by
  refine ⟨?_, ?_, ?_⟩
  · intro hne hall
    have hemp : pods.isEmpty = false := by
      cases pods with
      | nil => exact absurd rfl hne
      | cons a t => rfl
    have hf : pods.find? (fun q => q.phase == "Running") = none := by
      rw [List.find?_eq_none]
      intro a ha
      simpa using hall a ha
    simp [selectBackendPod, hemp, hf]
  · intro p hp
    by_cases hemp : pods.isEmpty = true
    · rw [selectBackendPod, if_pos hemp] at hp
      exact absurd hp (by simp)
    · rw [selectBackendPod, if_neg hemp] at hp
      cases hf : pods.find? (fun q => q.phase == "Running") with
      | none => rw [hf] at hp; exact absurd hp (by simp)
      | some q =>
        rw [hf] at hp
        have hq : q = p := by simpa using hp
        subst hq
        refine ⟨?_, List.mem_of_find?_eq_some hf⟩
        have := List.find?_some hf
        simpa using this
  · intro l1 p l2 hsplit hp h1
    subst hsplit
    have hemp : (l1 ++ p :: l2).isEmpty = false := by
      cases l1 <;> rfl
    have hf := find?_running_append_no_match l1 p l2 h1 hp
    simp [selectBackendPod, hemp, hf]

/-- C7 witness: a listing with only a `Pending` pod fails with
`NoRunningBackends`; a listing `[Pending, Running b, Running c]`
selects `b`, the first running pod. -/
theorem c7_service_fails_closed_witness :
    selectBackendPod [{ name := "a", phase := "Pending", containers := [] }] =
      .error .noRunningBackends ∧
    selectBackendPod
      [{ name := "a", phase := "Pending", containers := [] },
       { name := "b", phase := "Running", containers := [] },
       { name := "c", phase := "Running", containers := [] }] =
      .ok { name := "b", phase := "Running", containers := [] } := by
  constructor
  · exact (c7_service_fails_closed
      [{ name := "a", phase := "Pending", containers := [] }]).1
      (by simp) (by decide)
  · exact (c7_service_fails_closed
      [{ name := "a", phase := "Pending", containers := [] },
       { name := "b", phase := "Running", containers := [] },
       { name := "c", phase := "Running", containers := [] }]).2.2
      [{ name := "a", phase := "Pending", containers := [] }]
      { name := "b", phase := "Running", containers := [] }
      [{ name := "c", phase := "Running", containers := [] }]
      rfl rfl (by decide)

/-- C6: saving and re-loading the session reproduces exactly the
registry's `(namespace, kind, name, localPort, remotePort, wasActive)`
projection, and two registries holding the same map in different
iteration orders save-and-load to the same multiset of tuples. -/
theorem c6_save_load_roundtrip (prior1 prior2 : SessionState)
    (m1 m2 : Manager) (t1 t2 : Nat)
    (hperm : m1.connections.Perm m2.connections) :
    (loadState (saveState prior1 m1 t1)).connections =
      getAllConnectionsForSave m1 ∧
    (Multiset.ofList (loadState (saveState prior1 m1 t1)).connections =
      Multiset.ofList (loadState (saveState prior2 m2 t2)).connections) := by
  refine ⟨rfl, ?_⟩
  have hp : (getAllConnectionsForSave m1).Perm (getAllConnectionsForSave m2) :=
    hperm.map _
  exact Multiset.coe_eq_coe.mpr hp

/-- C6 witness: two two-record registries that are permutations of each
other save-and-load to the same multiset of saved tuples. -/
theorem c6_save_load_roundtrip_witness :
    (loadState (saveState ⟨0, []⟩
      ⟨[("d/pod/a:1->2", stoppedPlaceholder "d" .pod "a" 1 2 0),
        ("d/pod/b:3->4", stoppedPlaceholder "d" .pod "b" 3 4 0)]⟩ 5)).connections =
      getAllConnectionsForSave
        ⟨[("d/pod/a:1->2", stoppedPlaceholder "d" .pod "a" 1 2 0),
          ("d/pod/b:3->4", stoppedPlaceholder "d" .pod "b" 3 4 0)]⟩ ∧
    (Multiset.ofList (loadState (saveState ⟨0, []⟩
      ⟨[("d/pod/a:1->2", stoppedPlaceholder "d" .pod "a" 1 2 0),
        ("d/pod/b:3->4", stoppedPlaceholder "d" .pod "b" 3 4 0)]⟩ 5)).connections =
     Multiset.ofList (loadState (saveState ⟨9, []⟩
      ⟨[("d/pod/b:3->4", stoppedPlaceholder "d" .pod "b" 3 4 0),
        ("d/pod/a:1->2", stoppedPlaceholder "d" .pod "a" 1 2 0)]⟩ 6)).connections) :=
  c6_save_load_roundtrip ⟨0, []⟩ ⟨9, []⟩
    ⟨[("d/pod/a:1->2", stoppedPlaceholder "d" .pod "a" 1 2 0),
      ("d/pod/b:3->4", stoppedPlaceholder "d" .pod "b" 3 4 0)]⟩
    ⟨[("d/pod/b:3->4", stoppedPlaceholder "d" .pod "b" 3 4 0),
      ("d/pod/a:1->2", stoppedPlaceholder "d" .pod "a" 1 2 0)]⟩
    5 6
    (List.Perm.swap
      ("d/pod/b:3->4", stoppedPlaceholder "d" .pod "b" 3 4 0)
      ("d/pod/a:1->2", stoppedPlaceholder "d" .pod "a" 1 2 0) [])

theorem lookup_cons_ne (id k : String) (c : Connection)
    (l : List (String × Connection)) (h : id ≠ k) :
    ((k, c) :: l).lookup id = l.lookup id := by
  simp [List.lookup, beq_false_of_ne h]

theorem containsId_setConn (m : Manager) (id id' : String)
    (f : Connection → Connection) :
    (setConn m id f).containsId id' = m.containsId id' := by
  unfold Manager.containsId
  by_cases h : id' = id
  · subst h
    rw [find_setConn_self]
    cases m.find id' <;> rfl
  · rw [find_setConn_ne m id id' h]

theorem containsId_stop (m : Manager) (id id' : String) (now : Nat) :
    ((stopPortForward m id now).1).containsId id' = m.containsId id' := by
  unfold stopPortForward
  cases hf : m.find id with
  | none => rfl
  | some c => simp [containsId_setConn]

theorem lock_contains_target (m : Manager) (ns : String)
    (rt : ResourceType) (name : String) (lp rp now : Nat) :
    ((startPortForwardLock m ns rt name lp rp now).1).containsId
      (makeID ns rt name lp rp) = true := by
  cases hf : m.find (makeID ns rt name lp rp) with
  | none =>
    simp only [startPortForwardLock, hf]
    show (((makeID ns rt name lp rp,
      newStartingConnection ns rt name lp rp now) ::
        m.connections).lookup (makeID ns rt name lp rp)).isSome = true
    rw [lookup_cons_self]
    rfl
  | some ex =>
    by_cases hs : ex.status = .active ∨ ex.status = .starting
    · simp only [startPortForwardLock, hf, if_pos hs]
      show (m.find (makeID ns rt name lp rp)).isSome = true
      rw [hf]
      rfl
    · simp only [startPortForwardLock, hf, if_neg hs]
      show (((makeID ns rt name lp rp,
        newStartingConnection ns rt name lp rp now) ::
          eraseConn (makeID ns rt name lp rp) m.connections).lookup
            (makeID ns rt name lp rp)).isSome = true
      rw [lookup_cons_self]
      rfl

theorem lock_preserves (m : Manager) (ns : String) (rt : ResourceType)
    (name : String) (lp rp now : Nat) (id' : String)
    (h : m.containsId id' = true) :
    ((startPortForwardLock m ns rt name lp rp now).1).containsId id' =
      true := by
  by_cases he : id' = makeID ns rt name lp rp
  · subst he
    exact lock_contains_target m ns rt name lp rp now
  · cases hf : m.find (makeID ns rt name lp rp) with
    | none =>
      simp only [startPortForwardLock, hf]
      show (((makeID ns rt name lp rp,
        newStartingConnection ns rt name lp rp now) ::
          m.connections).lookup id').isSome = true
      rw [lookup_cons_ne _ _ _ _ he]
      exact h
    | some ex =>
      by_cases hs : ex.status = .active ∨ ex.status = .starting
      · simp only [startPortForwardLock, hf, if_pos hs]
        exact h
      · simp only [startPortForwardLock, hf, if_neg hs]
        show (((makeID ns rt name lp rp,
          newStartingConnection ns rt name lp rp now) ::
            eraseConn (makeID ns rt name lp rp) m.connections).lookup
              id').isSome = true
        rw [lookup_cons_ne _ _ _ _ he,
          lookup_eraseConn_ne (makeID ns rt name lp rp) id' he]
        exact h

theorem start_full_contains_target (m : Manager) (ns : String)
    (rt : ResourceType) (name : String) (lp rp now : Nat)
    (outcome : WorkerOutcome) :
    ((startPortForwardFull m ns rt name lp rp now outcome).1).containsId
      (makeID ns rt name lp rp) = true := by
  have hc := lock_contains_target m ns rt name lp rp now
  cases hl : startPortForwardLock m ns rt name lp rp now with
  | mk m' r =>
    rw [hl] at hc
    cases r with
    | error e =>
      cases e with
      | alreadyActive s =>
        simp only [startPortForwardFull, hl]
        exact hc
    | ok ev =>
      cases outcome with
      | ready =>
        simp only [startPortForwardFull, hl]
        rw [containsId_setConn]
        exact hc
      | failStart msg =>
        simp only [startPortForwardFull, hl]
        rw [containsId_setConn]
        exact hc
      | timeout =>
        simp only [startPortForwardFull, hl]
        rw [containsId_stop]
        exact hc
      | ctxDone =>
        simp only [startPortForwardFull, hl]
        rw [containsId_stop]
        exact hc

theorem start_full_preserves (m : Manager) (ns : String)
    (rt : ResourceType) (name : String) (lp rp now : Nat)
    (outcome : WorkerOutcome) (id' : String)
    (h : m.containsId id' = true) :
    ((startPortForwardFull m ns rt name lp rp now outcome).1).containsId
      id' = true := by
  have hc := lock_preserves m ns rt name lp rp now id' h
  cases hl : startPortForwardLock m ns rt name lp rp now with
  | mk m' r =>
    rw [hl] at hc
    cases r with
    | error e =>
      cases e with
      | alreadyActive s =>
        simp only [startPortForwardFull, hl]
        exact hc
    | ok ev =>
      cases outcome with
      | ready =>
        simp only [startPortForwardFull, hl]
        rw [containsId_setConn]
        exact hc
      | failStart msg =>
        simp only [startPortForwardFull, hl]
        rw [containsId_setConn]
        exact hc
      | timeout =>
        simp only [startPortForwardFull, hl]
        rw [containsId_stop]
        exact hc
      | ctxDone =>
        simp only [startPortForwardFull, hl]
        rw [containsId_stop]
        exact hc

theorem addStopped_contains_target (m : Manager) (ns : String)
    (rt : ResourceType) (name : String) (lp rp now : Nat) :
    (addStoppedConnection m ns rt name lp rp now).containsId
      (makeID ns rt name lp rp) = true := by
  cases hf : m.find (makeID ns rt name lp rp) with
  | some c =>
    simp only [addStoppedConnection, hf]
    show (m.find (makeID ns rt name lp rp)).isSome = true
    rw [hf]
    rfl
  | none =>
    simp only [addStoppedConnection, hf]
    show (((makeID ns rt name lp rp,
      stoppedPlaceholder ns rt name lp rp now) ::
        m.connections).lookup (makeID ns rt name lp rp)).isSome = true
    rw [lookup_cons_self]
    rfl

theorem addStopped_preserves (m : Manager) (ns : String)
    (rt : ResourceType) (name : String) (lp rp now : Nat) (id' : String)
    (h : m.containsId id' = true) :
    (addStoppedConnection m ns rt name lp rp now).containsId id' =
      true := by
  by_cases he : id' = makeID ns rt name lp rp
  · subst he
    exact addStopped_contains_target m ns rt name lp rp now
  · cases hf : m.find (makeID ns rt name lp rp) with
    | some c =>
      simp only [addStoppedConnection, hf]
      exact h
    | none =>
      simp only [addStoppedConnection, hf]
      show (((makeID ns rt name lp rp,
        stoppedPlaceholder ns rt name lp rp now) ::
          m.connections).lookup id').isSome = true
      rw [lookup_cons_ne _ _ _ _ he]
      exact h

theorem restoreEntry_contains_target
    (env : SavedConnectionInfo → WorkerOutcome) (now : Nat) (m : Manager)
    (e : SavedConnectionInfo) :
    (restoreEntry env now m e).containsId e.restoreId = true := by
  unfold restoreEntry SavedConnectionInfo.restoreId
  cases hw : e.wasActive with
  | false =>
    simp only [Bool.not_false, if_pos rfl]
    exact addStopped_contains_target m e.ns e.restoreRT e.resourceName
      e.localPort e.remotePort now
  | true =>
    simp only [Bool.not_true, Bool.false_eq_true, if_neg]
    cases hs : startPortForwardFull m e.ns e.restoreRT e.resourceName
        e.localPort e.remotePort now (env e) with
    | mk m' r =>
      cases r with
      | none =>
        have hc := start_full_contains_target m e.ns e.restoreRT
          e.resourceName e.localPort e.remotePort now (env e)
        rw [hs] at hc
        exact hc
      | some msg =>
        exact addStopped_contains_target m' e.ns e.restoreRT
          e.resourceName e.localPort e.remotePort now

theorem restoreEntry_preserves
    (env : SavedConnectionInfo → WorkerOutcome) (now : Nat) (m : Manager)
    (e : SavedConnectionInfo) (id' : String)
    (h : m.containsId id' = true) :
    (restoreEntry env now m e).containsId id' = true := by
  unfold restoreEntry
  cases hw : e.wasActive with
  | false =>
    simp only [Bool.not_false, if_pos rfl]
    exact addStopped_preserves m e.ns e.restoreRT e.resourceName
      e.localPort e.remotePort now id' h
  | true =>
    simp only [Bool.not_true, Bool.false_eq_true, if_neg]
    cases hs : startPortForwardFull m e.ns e.restoreRT e.resourceName
        e.localPort e.remotePort now (env e) with
    | mk m' r =>
      have hc := start_full_preserves m e.ns e.restoreRT e.resourceName
        e.localPort e.remotePort now (env e) id' h
      rw [hs] at hc
      cases r with
      | none => exact hc
      | some msg =>
        exact addStopped_preserves m' e.ns e.restoreRT e.resourceName
          e.localPort e.remotePort now id' hc

theorem restore_preserves (env : SavedConnectionInfo → WorkerOutcome)
    (now : Nat) (entries : List SavedConnectionInfo) (m : Manager)
    (id' : String) (h : m.containsId id' = true) :
    (restoreConnections env now m entries).containsId id' = true := by
  induction entries generalizing m with
  | nil => exact h
  | cons a t ih =>
    exact ih (restoreEntry env now m a)
      (restoreEntry_preserves env now m a id' h)

theorem restore_all_present (env : SavedConnectionInfo → WorkerOutcome)
    (now : Nat) :
    ∀ (entries : List SavedConnectionInfo) (m0 : Manager)
      (e : SavedConnectionInfo), e ∈ entries →
      (restoreConnections env now m0 entries).containsId e.restoreId =
        true := by
  intro entries
  induction entries with
  | nil =>
    intro m0 e he
    cases he
  | cons a t ih =>
    intro m0 e he
    rcases List.mem_cons.mp he with rfl | ht
    · exact restore_preserves env now t (restoreEntry env now m0 e)
        e.restoreId (restoreEntry_contains_target env now m0 e)
    · exact ih (restoreEntry env now m0 a) e ht

/-- C9 counterexample: the claim says a `wasActive:true` entry whose
start attempt fails is restored by inserting a `Stopped` placeholder;
restoring this concrete one-entry session (the start fails because the
pod is gone) leaves the entry's record in status `Error` — the record
the failed start itself created, which makes the placeholder insert a
no-op — so the claimed property is false. -/
theorem c9_counterexample :
    ((restoreConnections (fun _ => .failStart "pod not found") 3 ⟨[]⟩
        [{ ns := "d", resourceType := "pod", resourceName := "gone",
           localPort := 8080, remotePort := 80, wasActive := true }]).find
      "d/pod/gone:8080->80").map Connection.status = some Status.error ∧
    ¬ (((restoreConnections (fun _ => .failStart "pod not found") 3 ⟨[]⟩
        [{ ns := "d", resourceType := "pod", resourceName := "gone",
           localPort := 8080, remotePort := 80, wasActive := true }]).find
      "d/pod/gone:8080->80").map Connection.status =
        some Status.stopped) := by
  exact ⟨by decide, by decide⟩

/-- C9 (amended): session restore is best-effort — the restore loop is
total (per-entry failures are counted, never returned), and after
restoring any session every saved entry's identity exists in the
registry.  A `wasActive:false` entry whose identity is not yet present
is inserted as a `Stopped` placeholder; a failed `wasActive:true` entry
remains as the record its failed start left behind (status `Error` for
worker failures), the placeholder insert being a no-op on it. -/
theorem c9_restore_best_effort (env : SavedConnectionInfo → WorkerOutcome)
    (now : Nat) (m0 : Manager) (entries : List SavedConnectionInfo) :
    (∀ e ∈ entries,
      (restoreConnections env now m0 entries).containsId e.restoreId =
        true) ∧
    (∀ e : SavedConnectionInfo, e.wasActive = false →
      m0.find e.restoreId = none →
      (restoreEntry env now m0 e).find e.restoreId =
        some (stoppedPlaceholder e.ns e.restoreRT e.resourceName
          e.localPort e.remotePort now)) := by
  constructor
  · intro e he
    exact restore_all_present env now entries m0 e he
  · intro e hw hfind
    unfold restoreEntry
    rw [hw]
    simp only [Bool.not_false, if_pos]
    have hfind' : m0.find (makeID e.ns e.restoreRT e.resourceName
        e.localPort e.remotePort) = none := hfind
    simp only [addStoppedConnection, hfind']
    exact lookup_cons_self _ _ _

/-- C9 amended-claim witness: restoring a mixed two-entry session — one
`wasActive:true` entry whose start fails, one `wasActive:false` entry —
leaves both identities in the registry, and the inert entry restores as
a `Stopped` placeholder. -/
theorem c9_restore_best_effort_witness :
    ((restoreConnections (fun _ => .failStart "pod not found") 3 ⟨[]⟩
        [{ ns := "d", resourceType := "pod", resourceName := "gone",
           localPort := 8080, remotePort := 80, wasActive := true },
         { ns := "d", resourceType := "service", resourceName := "db",
           localPort := 5432, remotePort := 5432,
           wasActive := false }]).containsId "d/pod/gone:8080->80" =
      true) ∧
    ((restoreConnections (fun _ => .failStart "pod not found") 3 ⟨[]⟩
        [{ ns := "d", resourceType := "pod", resourceName := "gone",
           localPort := 8080, remotePort := 80, wasActive := true },
         { ns := "d", resourceType := "service", resourceName := "db",
           localPort := 5432, remotePort := 5432,
           wasActive := false }]).containsId "d/svc/db:5432->5432" =
      true) ∧
    (restoreEntry (fun _ => .failStart "pod not found") 3 ⟨[]⟩
        { ns := "d", resourceType := "service", resourceName := "db",
          localPort := 5432, remotePort := 5432, wasActive := false }).find
      "d/svc/db:5432->5432" =
      some (stoppedPlaceholder "d" .service "db" 5432 5432 3) := by
  have h := c9_restore_best_effort (fun _ => .failStart "pod not found") 3
    ⟨[]⟩
    [{ ns := "d", resourceType := "pod", resourceName := "gone",
       localPort := 8080, remotePort := 80, wasActive := true },
     { ns := "d", resourceType := "service", resourceName := "db",
       localPort := 5432, remotePort := 5432, wasActive := false }]
  refine ⟨?_, ?_, ?_⟩
  · exact h.1
      { ns := "d", resourceType := "pod", resourceName := "gone",
        localPort := 8080, remotePort := 80, wasActive := true }
      (List.mem_cons_self _ _)
  · exact h.1
      { ns := "d", resourceType := "service", resourceName := "db",
        localPort := 5432, remotePort := 5432, wasActive := false }
      (List.mem_cons_of_mem _ (List.mem_cons_self _ _))
  · exact h.2
      { ns := "d", resourceType := "service", resourceName := "db",
        localPort := 5432, remotePort := 5432, wasActive := false }
      rfl rfl

end PortFwd
